import Mathlib

/-
Shallow embedding of the activist data-access layer (src/model/activist.go).

The relational store is modelled explicitly: a `DB` carries the `activists`
table together with the external collaborator tables `events` and
`event_attendance`, plus boolean fault-injection flags that model the
possible failures of the underlying store (a failing SELECT, a failure to
begin a transaction, a failing INSERT, a failing COMMIT, a failing UPDATE).
Read-only operations return `Except String`; mutating operations also return
the post-state of the store.  Go string comparison (and the SQL comparison
used by the queries, assumed binary/lexicographic) is modelled by
lexicographic comparison of the character lists, which agrees with the
`String` order.
-/

namespace Model

/-- Lexicographic string strict comparison, evaluable by the kernel. -/
def strLt (a b : String) : Bool := decide (a.toList < b.toList)

/-- Lexicographic string comparison (non-strict), evaluable by the kernel. -/
def strLe (a b : String) : Bool := decide (a.toList ≤ b.toList)

theorem strLt_iff (a b : String) : strLt a b = true ↔ a < b := by
  rw [String.lt_iff_toList_lt]; simp [strLt]

theorem strLe_iff (a b : String) : strLe a b = true ↔ a ≤ b := by
  rw [String.le_iff_toList_le]; simp [strLe]

/-- `const descOrder int = 2` -/
def descOrder : Int := 2

/-- `const ascOrder int = 1` -/
def ascOrder : Int := 1

/-- A row of the `activists` table (all columns referenced by the queries).
`location` is a nullable column (`sql.NullString`). -/
structure ActivistRow where
  id : Int
  name : String
  email : String
  chapter : String
  phone : String
  location : Option String
  facebook : String
  activistLevel : String
  excludeFromLeaderboard : Int
  coreStaff : Int
  globalTeamMember : Int
  liberationPledge : Int
deriving Repr, DecidableEq, Inhabited

/-- A row of the external `events` table; the date is an abstract instant. -/
structure EventRow where
  id : Int
  date : Nat
deriving Repr, DecidableEq, Inhabited

/-- A row of the external `event_attendance` table. -/
structure AttendanceRow where
  eventId : Int
  activistId : Int
deriving Repr, DecidableEq, Inhabited

/-- The store: the three tables plus fault-injection flags modelling
failures of the underlying database at each kind of operation. -/
structure DB where
  activists : List ActivistRow
  events : List EventRow
  eventAttendance : List AttendanceRow
  failSelect : Bool := false
  failBegin : Bool := false
  failInsert : Bool := false
  failCommit : Bool := false
  failUpdate : Bool := false
deriving Repr, DecidableEq, Inhabited

/-- Go struct `User`.  Note: `selectUserBaseQuery` does not select the
`liberation_pledge` column, so rows scanned through it leave the field at
its zero value. -/
structure User where
  id : Int
  name : String
  email : String
  chapter : String
  phone : String
  location : Option String
  facebook : String
  liberationPledge : Int
deriving Repr, DecidableEq, Inhabited

/-- Go struct `UserEventData`. -/
structure UserEventData where
  firstEvent : Option Nat
  lastEvent : Option Nat
  totalEvents : Int
  status : String
deriving Repr, DecidableEq, Inhabited

/-- Go struct `UserMembershipData`. -/
structure UserMembershipData where
  coreStaff : Int
  excludeFromLeaderboard : Int
  globalTeamMember : Int
  activistLevel : String
deriving Repr, DecidableEq, Inhabited

/-- Go struct `UserExtra` (embeds the three groups). -/
structure UserExtra where
  user : User
  eventData : UserEventData
  membership : UserMembershipData
deriving Repr, DecidableEq, Inhabited

/-- Go struct `UserJSON`. -/
structure UserJSON where
  id : Int
  name : String
  email : String
  chapter : String
  phone : String
  location : String
  facebook : String
  firstEvent : String
  lastEvent : String
  totalEvents : Int
  status : String
  core : Int
  excludeFromLeaderboard : Int
  liberationPledge : Int
  globalTeamMember : Int
  activistLevel : String
deriving Repr, DecidableEq, Inhabited

/-- Go struct `UserOptionsJSON`. -/
structure UserOptionsJSON where
  name : String
  limit : Int
  order : Int
deriving Repr, DecidableEq, Inhabited

/-- Result of a Go call that can also hit a runtime panic (used for
`GetUserJSON`, whose `users[0]` indexes a possibly empty slice). -/
inductive GoResult (α : Type) where
  | ok : α → GoResult α
  | err : String → GoResult α
  | panicked : String → GoResult α
deriving Repr, DecidableEq

/-- Modelled from the spec: `getStatus` is defined outside the reviewed core
("Exact thresholds are an external policy function"); the spec only requires
a pure derivation to a categorical status label with a documented default.
Default chosen here: "no-events" when the count is zero, otherwise "active". -/
def getStatus (_firstEvent _lastEvent : Option Nat) (totalEvents : Int) : String :=
  if totalEvents = 0 then "no-events" else "active"

/-- Modelled from the spec: `EventDateLayout` and `time.Time.Format` live
outside the reviewed core; the spec only requires dates be string-formatted
(empty string when absent).  Modelled as decimal rendering of the instant. -/
def formatEventDate (t : Nat) : String := toString t

/-- MIN aggregate over a list of dates (NULL on the empty group). -/
def listMin? (l : List Nat) : Option Nat :=
  l.foldl (fun acc d => match acc with | none => some d | some m => some (min m d)) none

/-- MAX aggregate over a list of dates (NULL on the empty group). -/
def listMax? (l : List Nat) : Option Nat :=
  l.foldl (fun acc d => match acc with | none => some d | some m => some (max m d)) none

/-- Dates of the events attended by activist `aid`:
`LEFT JOIN event_attendance ... LEFT JOIN events` — attendance rows whose
event is missing contribute a NULL `e.id`/`e.date` and are dropped by the
aggregates (`COUNT(e.id)` ignores NULL). -/
def attendedDates (db : DB) (aid : Int) : List Nat :=
  (db.eventAttendance.filter (fun ea => ea.activistId = aid)).filterMap
    (fun ea => (db.events.find? (fun e => e.id = ea.eventId)).map (fun e => e.date))

/-- Dates of the events attended by any activist named `name`
(the `GROUP BY a.name` grouping of the joined rows). -/
def datesForName (db : DB) (name : String) : List Nat :=
  (db.activists.filter (fun a => a.name = name)).flatMap
    (fun a => attendedDates db a.id)

/-- Scan a row through `selectUserBaseQuery` (no `liberation_pledge` column,
so that field keeps its zero value). -/
def userOfRow (a : ActivistRow) : User :=
  { id := a.id, name := a.name, email := a.email, chapter := a.chapter,
    phone := a.phone, location := a.location, facebook := a.facebook,
    liberationPledge := 0 }

/-- Scan a row through `selectUserExtraBaseQuery` grouped by `a.id`:
aggregates are computed over that activist's attendance. `Status` is not a
database column and keeps its zero value until set explicitly. -/
def userExtraOfId (db : DB) (a : ActivistRow) : UserExtra :=
  let dates := attendedDates db a.id
  { user := { userOfRow a with liberationPledge := a.liberationPledge },
    eventData := { firstEvent := listMin? dates, lastEvent := listMax? dates,
                   totalEvents := Int.ofNat dates.length, status := "" },
    membership := { coreStaff := a.coreStaff,
                    excludeFromLeaderboard := a.excludeFromLeaderboard,
                    globalTeamMember := a.globalTeamMember,
                    activistLevel := a.activistLevel } }

/-- Scan a row through `selectUserExtraBaseQuery` grouped by `a.name`:
aggregates are computed over the whole name group, the non-aggregated
columns come from the representative row of the group. -/
def userExtraOfName (db : DB) (a : ActivistRow) : UserExtra :=
  let dates := datesForName db a.name
  { user := { userOfRow a with liberationPledge := a.liberationPledge },
    eventData := { firstEvent := listMin? dates, lastEvent := listMax? dates,
                   totalEvents := Int.ofNat dates.length, status := "" },
    membership := { coreStaff := a.coreStaff,
                    excludeFromLeaderboard := a.excludeFromLeaderboard,
                    globalTeamMember := a.globalTeamMember,
                    activistLevel := a.activistLevel } }

/-- `ORDER BY a.name` (ascending) as a relation on rows. -/
def nameLeRow (a b : ActivistRow) : Prop := a.name ≤ b.name

/-- `ORDER BY a.name desc` as a relation on rows. -/
def nameGeRow (a b : ActivistRow) : Prop := b.name ≤ a.name

instance : DecidableRel nameLeRow := fun a b =>
  decidable_of_iff (strLe a.name b.name = true) (by rw [strLe_iff]; exact Iff.rfl)

instance : DecidableRel nameGeRow := fun a b =>
  decidable_of_iff (strLe b.name a.name = true) (by rw [strLe_iff]; exact Iff.rfl)

instance : IsTotal ActivistRow nameLeRow := ⟨fun a b => le_total a.name b.name⟩

instance : IsTrans ActivistRow nameLeRow := ⟨fun _ _ _ h h' => le_trans h h'⟩

instance : IsTotal ActivistRow nameGeRow := ⟨fun a b => le_total b.name a.name⟩

instance : IsTrans ActivistRow nameGeRow := ⟨fun _ _ _ h h' => le_trans h' h⟩

/-- `GROUP BY a.name`: one row per distinct name, represented by the first
row of the table bearing that name. -/
def dedupByName : List ActivistRow → List ActivistRow
  | [] => []
  | a :: rest => a :: (dedupByName rest).filter (fun b => b.name ≠ a.name)

/-- `getUsers`: `selectUserBaseQuery`, optional `WHERE name = ?`, then
`ORDER BY name`. -/
def getUsers (db : DB) (name : String) : Except String (List User) :=
  if db.failSelect then .error ("failed to get users for " ++ name)
  else
    let rows := if name ≠ "" then db.activists.filter (fun a => a.name = name)
                else db.activists
    .ok ((rows.insertionSort nameLeRow).map userOfRow)

/-- `GetUser`: lookup by name, demanding exactly one match. -/
def GetUser (db : DB) (name : String) : Except String User :=
  match getUsers db name with
  | .error e => .error e
  | .ok users =>
    if users.length = 0 then .error "Could not find any users"
    else if users.length > 1 then .error "Found too many users"
    else .ok users.headI

/-- `GetUsers`. -/
def GetUsers (db : DB) : Except String (List User) := getUsers db ""

/-- The per-row assignment performed by the loop at the end of
`GetUsersExtra`: `users[i].Status = getStatus(...)`. -/
def setStatus (u : UserExtra) : UserExtra :=
  { u with
    eventData :=
      { u.eventData with
        status := getStatus u.eventData.firstEvent u.eventData.lastEvent
                    u.eventData.totalEvents } }

/-- `GetUsersExtra`: `selectUserExtraBaseQuery`, `WHERE a.id = ?` only when
`userID != 0`, `GROUP BY a.id`, then a loop setting `Status`. -/
def GetUsersExtra (db : DB) (userID : Int) : Except String (List UserExtra) :=
  if db.failSelect then .error ("failed to get users extra for uid " ++ toString userID)
  else
    let rows := if userID ≠ 0 then db.activists.filter (fun a => a.id = userID)
                else db.activists
    let users := rows.map (userExtraOfId db)
    .ok (users.map setStatus)

/-- `buildUserJSONArray`. -/
def buildUserJSONArray (users : List UserExtra) : List UserJSON :=
  users.map (fun u =>
    let firstEvent := match u.eventData.firstEvent with
      | none => ""
      | some t => formatEventDate t
    let lastEvent := match u.eventData.lastEvent with
      | none => ""
      | some t => formatEventDate t
    let location := match u.user.location with
      | none => ""
      | some s => s
    { id := u.user.id, name := u.user.name, email := u.user.email,
      chapter := u.user.chapter, phone := u.user.phone, location := location,
      facebook := u.user.facebook, activistLevel := u.membership.activistLevel,
      firstEvent := firstEvent, lastEvent := lastEvent,
      totalEvents := u.eventData.totalEvents, status := u.eventData.status,
      core := u.membership.coreStaff,
      excludeFromLeaderboard := u.membership.excludeFromLeaderboard,
      liberationPledge := u.user.liberationPledge,
      globalTeamMember := u.membership.globalTeamMember })

/-- `getUsersJSON`. -/
def getUsersJSON (db : DB) (userID : Int) : Except String (List UserJSON) :=
  match GetUsersExtra db userID with
  | .error e => .error e
  | .ok users => .ok (buildUserJSONArray users)

/-- `GetUsersJSON`. -/
def GetUsersJSON (db : DB) : Except String (List UserJSON) := getUsersJSON db 0

/-- `GetUserJSON`: returns `users[0]` of `getUsersJSON` with no emptiness
check — on an empty result the Go slice index panics at runtime. -/
def GetUserJSON (db : DB) (userID : Int) : GoResult UserJSON :=
  match getUsersJSON db userID with
  | .error e => .err e
  | .ok users =>
    match users.head? with
    | some u => .ok u
    | none => .panicked "runtime error: index out of range [0] with length 0"

/-- `getUserRange`: `selectUserExtraBaseQuery`, keyset filter on the anchor
name (strict `<`/`>` per direction) when the anchor is non-empty,
`GROUP BY a.name ORDER BY a.name [desc]`, optional `LIMIT`. -/
def getUserRange (db : DB) (userOptions : UserOptionsJSON) : Except String (List UserExtra) :=
  if db.failSelect then
    .error ("failed to retrieve " ++ toString userOptions.limit ++
      " users before/after " ++ userOptions.name)
  else
    let rows :=
      if userOptions.name ≠ "" then
        db.activists.filter (fun a =>
          if userOptions.order = descOrder then strLt a.name userOptions.name
          else strLt userOptions.name a.name)
      else db.activists
    let grouped := dedupByName rows
    let sorted :=
      if userOptions.order = descOrder then grouped.insertionSort nameGeRow
      else grouped.insertionSort nameLeRow
    let limited := if userOptions.limit > 0 then sorted.take userOptions.limit.toNat
                   else sorted
    .ok (limited.map (userExtraOfName db))

/-- `GetUserRangeJSON`: validates `order` against the two constants before
issuing any query. -/
def GetUserRangeJSON (db : DB) (userOptions : UserOptionsJSON) : Except String (List UserJSON) :=
  if userOptions.order ≠ descOrder ∧ userOptions.order ≠ ascOrder then
    .error "User Range order must be ascending or descending"
  else
    match getUserRange db userOptions with
    | .error e => .error e
    | .ok users => .ok (buildUserJSONArray users)

/-- `(u User) GetUserEventData`: single-activist aggregate query. -/
def GetUserEventData (db : DB) (u : User) : Except String UserEventData :=
  if db.failSelect then .error "failed to get user event data"
  else
    let dates := attendedDates db u.id
    .ok { firstEvent := listMin? dates, lastEvent := listMax? dates,
          totalEvents := Int.ofNat dates.length, status := "" }

/-- Auto-increment id for `INSERT INTO activists (name) VALUES (?)`. -/
def freshId (rows : List ActivistRow) : Int :=
  (rows.map (fun a => a.id)).foldr max 0 + 1

/-- The row created by `INSERT INTO activists (name) VALUES (?)`: only the
name is populated, every other column takes its default. -/
def newActivistRow (rows : List ActivistRow) (name : String) : ActivistRow :=
  { id := freshId rows, name := name, email := "", chapter := "", phone := "",
    location := none, facebook := "", activistLevel := "",
    excludeFromLeaderboard := 0, coreStaff := 0, globalTeamMember := 0,
    liberationPledge := 0 }

/-- `GetOrCreateUser`: lookup, and on any lookup error insert the name
inside a transaction, re-read it by name (`tx.Get` takes the first matching
row), and commit; any failure at begin/insert/re-read/commit rolls the
transaction back, leaving the store state unchanged. -/
def GetOrCreateUser (db : DB) (name : String) : Except String User × DB :=
  match GetUser db name with
  | .ok user => (.ok user, db)
  | .error _ =>
    if db.failBegin then (.error "Failed to create transaction", db)
    else if db.failInsert then (.error ("failed to insert user " ++ name), db)
    else
      let txRows := db.activists ++ [newActivistRow db.activists name]
      if db.failSelect then (.error ("failed to get new user " ++ name), db)
      else
        match (txRows.filter (fun a => a.name = name)).head? with
        | none => (.error ("failed to get new user " ++ name), db)
        | some row =>
          if db.failCommit then (.error ("failed to commit user " ++ name), db)
          else (.ok (userOfRow row), { db with activists := txRows })

/-- The row overwrite performed by `UpdateActivistData`'s UPDATE statement
(all mutable columns set from the struct, keyed by id). -/
def applyUpdate (u : UserExtra) (a : ActivistRow) : ActivistRow :=
  { a with
    name := u.user.name,
    email := u.user.email,
    chapter := u.user.chapter,
    phone := u.user.phone,
    location := u.user.location,
    facebook := u.user.facebook,
    activistLevel := u.membership.activistLevel,
    excludeFromLeaderboard := u.membership.excludeFromLeaderboard,
    coreStaff := u.membership.coreStaff,
    globalTeamMember := u.membership.globalTeamMember,
    liberationPledge := u.user.liberationPledge }

/-- `UpdateActivistData`: UPDATE keyed by id; the affected-row count is
discarded, and the given id is returned on success. -/
def UpdateActivistData (db : DB) (user : UserExtra) : Except String Int × DB :=
  if db.failUpdate then (.error "failed to update activist data", db)
  else
    (.ok user.user.id,
     { db with activists := db.activists.map (fun a =>
         if a.id = user.user.id then applyUpdate user a else a) })

/-! Helper rows and lemmas. -/

/-- A concrete activists-table row used in concrete instances. -/
def sampleRow (i : Int) (n : String) : ActivistRow :=
  { id := i, name := n, email := "", chapter := "", phone := "", location := none,
    facebook := "", activistLevel := "", excludeFromLeaderboard := 0, coreStaff := 0,
    globalTeamMember := 0, liberationPledge := 0 }

theorem mem_dedupByName : ∀ (l : List ActivistRow) (b : ActivistRow),
    b ∈ dedupByName l → b ∈ l := by
  intro l
  induction l with
  | nil => intro b h; simp [dedupByName] at h
  | cons a rest ih =>
    intro b h
    rcases List.mem_cons.mp h with h1 | h2
    · exact h1 ▸ List.mem_cons_self a rest
    · exact List.mem_cons_of_mem a (ih b (List.mem_of_mem_filter h2))

theorem dedupByName_covers : ∀ (l : List ActivistRow) (a : ActivistRow), a ∈ l →
    ∃ b ∈ dedupByName l, b.name = a.name := by
  intro l
  induction l with
  | nil => intro a h; simp at h
  | cons c rest ih =>
    intro a h
    rcases List.mem_cons.mp h with h1 | h2
    · exact ⟨c, List.mem_cons_self c _, by rw [h1]⟩
    · obtain ⟨b, hb, hbn⟩ := ih a h2
      by_cases hn : b.name = c.name
      · exact ⟨c, List.mem_cons_self c _, by rw [← hn, hbn]⟩
      · have hmem : b ∈ (dedupByName rest).filter (fun b => b.name ≠ c.name) :=
          List.mem_filter.mpr ⟨hb, by simp [hn]⟩
        exact ⟨b, List.mem_cons_of_mem c hmem, hbn⟩

/-! Claim theorems. -/

/-- C1: the spec says a lookup by an id that matches no activist row must
fail with a NotFound error; the code instead evaluates `users[0]` on the
empty result slice and panics with an index-out-of-range runtime error.
Failing input: an empty activists table queried with id 42. -/
theorem C1_get_user_json_panics_on_missing_id :
    GetUserJSON { activists := [], events := [], eventAttendance := [] } 42 =
      .panicked "runtime error: index out of range [0] with length 0" := by
  rfl

/-- C3: for every order value other than the two recognized constants,
GetUserRangeJSON fails with the validation error and returns no rows, and
the outcome is the same for every store state (healthy or failing), so no
query is issued to the store. -/
theorem C3_invalid_order_fails_validation (db : DB) (userOptions : UserOptionsJSON)
    (h1 : userOptions.order ≠ ascOrder) (h2 : userOptions.order ≠ descOrder) :
    GetUserRangeJSON db userOptions =
        .error "User Range order must be ascending or descending" ∧
    ∀ db2 : DB, GetUserRangeJSON db2 userOptions = GetUserRangeJSON db userOptions := by
  have hcond : userOptions.order ≠ descOrder ∧ userOptions.order ≠ ascOrder := ⟨h2, h1⟩
  constructor
  · unfold GetUserRangeJSON
    rw [if_pos hcond]
  · intro db2
    unfold GetUserRangeJSON
    rw [if_pos hcond, if_pos hcond]

/-- Witness for C3 at order 0 and a failing store. -/
theorem C3_invalid_order_fails_validation_witness :
    ((0 : Int) ≠ ascOrder ∧ (0 : Int) ≠ descOrder) ∧
    (GetUserRangeJSON
        { activists := [sampleRow 1 "Alice"], events := [], eventAttendance := [],
          failSelect := true }
        { name := "", limit := 5, order := 0 } =
      .error "User Range order must be ascending or descending") :=
  ⟨⟨by decide, by decide⟩,
    (C3_invalid_order_fails_validation
      { activists := [sampleRow 1 "Alice"], events := [], eventAttendance := [],
        failSelect := true }
      { name := "", limit := 5, order := 0 } (by decide) (by decide)).1⟩

/-- C8: GetOrCreateUser takes the insert path on any lookup failure, not
only on not-found: with two rows already named "Alice" the lookup fails as
ambiguous, yet the call still inserts a third row named "Alice" and returns
the first matching row instead of reporting the lookup error. -/
theorem C8_insert_on_any_lookup_failure :
    GetUser { activists := [sampleRow 1 "Alice", sampleRow 2 "Alice"],
              events := [], eventAttendance := [] } "Alice" =
      .error "Found too many users" ∧
    (GetOrCreateUser { activists := [sampleRow 1 "Alice", sampleRow 2 "Alice"],
                       events := [], eventAttendance := [] } "Alice").1 =
      .ok (userOfRow (sampleRow 1 "Alice")) ∧
    (((GetOrCreateUser { activists := [sampleRow 1 "Alice", sampleRow 2 "Alice"],
                         events := [], eventAttendance := [] } "Alice").2.activists.filter
        (fun a => a.name = "Alice")).length = 3) := by
  refine ⟨?_, ?_, ?_⟩ <;> rfl

/-- C9: UpdateActivistData reports the given id with no error even when no
activist row has that id; the UPDATE then matches zero rows and the store
state is unchanged, so the reported success does not imply any row changed. -/
theorem C9_update_zero_rows_reports_success (db : DB) (user : UserExtra)
    (hfail : db.failUpdate = false)
    (habs : ∀ a ∈ db.activists, a.id ≠ user.user.id) :
    UpdateActivistData db user = (.ok user.user.id, db) := by
  unfold UpdateActivistData
  rw [if_neg (by simp [hfail])]
  have hmap : db.activists.map (fun a =>
      if a.id = user.user.id then applyUpdate user a else a) = db.activists := by
    have h1 : db.activists.map (fun a =>
        if a.id = user.user.id then applyUpdate user a else a) = db.activists.map id :=
      List.map_congr_left (fun a ha => by rw [if_neg (habs a ha)]; rfl)
    rw [h1, List.map_id]
  rw [hmap]

/-- Witness for C9: updating an id absent from the table. -/
theorem C9_update_zero_rows_reports_success_witness :
    (∀ a ∈ ({ activists := [sampleRow 1 "Alice"], events := [],
              eventAttendance := [] } : DB).activists,
        a.id ≠ (⟨{ id := 2, name := "Bob", email := "", chapter := "", phone := "",
                   location := none, facebook := "", liberationPledge := 0 },
                 ⟨none, none, 0, ""⟩, ⟨0, 0, 0, ""⟩⟩ : UserExtra).user.id) ∧
    UpdateActivistData
        { activists := [sampleRow 1 "Alice"], events := [], eventAttendance := [] }
        ⟨{ id := 2, name := "Bob", email := "", chapter := "", phone := "",
           location := none, facebook := "", liberationPledge := 0 },
         ⟨none, none, 0, ""⟩, ⟨0, 0, 0, ""⟩⟩ =
      (.ok 2, { activists := [sampleRow 1 "Alice"], events := [], eventAttendance := [] }) :=
  ⟨by decide,
    C9_update_zero_rows_reports_success
      { activists := [sampleRow 1 "Alice"], events := [], eventAttendance := [] }
      ⟨{ id := 2, name := "Bob", email := "", chapter := "", phone := "",
         location := none, facebook := "", liberationPledge := 0 },
       ⟨none, none, 0, ""⟩, ⟨0, 0, 0, ""⟩⟩ rfl (by decide)⟩

theorem getUsersJSON_zero (db : DB) (hfail : db.failSelect = false) :
    getUsersJSON db 0 =
      .ok (buildUserJSONArray ((db.activists.map (userExtraOfId db)).map setStatus)) := by
  simp [getUsersJSON, GetUsersExtra, hfail]

/-- C7: buildUserJSONArray maps each activist row to a JSON record whose
first/last event strings are empty exactly when the date is absent and the
formatted date otherwise, whose location is the empty string when the stored
location is null and the stored string otherwise, and whose boolean-like
flags (core_staff, exclude_from_leaderboard, liberation_pledge,
global_team_member) are carried through as the stored 0/1 integers. -/
theorem C7_json_array_shape (users : List UserExtra) :
    List.Forall₂ (fun u j =>
      (u.eventData.firstEvent = none → j.firstEvent = "") ∧
      (∀ t, u.eventData.firstEvent = some t → j.firstEvent = formatEventDate t) ∧
      (u.eventData.lastEvent = none → j.lastEvent = "") ∧
      (∀ t, u.eventData.lastEvent = some t → j.lastEvent = formatEventDate t) ∧
      (u.user.location = none → j.location = "") ∧
      (∀ s, u.user.location = some s → j.location = s) ∧
      j.core = u.membership.coreStaff ∧
      j.excludeFromLeaderboard = u.membership.excludeFromLeaderboard ∧
      j.liberationPledge = u.user.liberationPledge ∧
      j.globalTeamMember = u.membership.globalTeamMember)
      users (buildUserJSONArray users) := by
  induction users with
  | nil => exact List.Forall₂.nil
  | cons u rest ih =>
    refine List.Forall₂.cons ?_ ih
    refine ⟨?_, ?_, ?_, ?_, ?_, ?_, rfl, rfl, rfl, rfl⟩
    · intro h; simp [buildUserJSONArray, h]
    · intro t h; simp [buildUserJSONArray, h]
    · intro h; simp [buildUserJSONArray, h]
    · intro t h; simp [buildUserJSONArray, h]
    · intro h; simp [buildUserJSONArray, h]
    · intro s h; simp [buildUserJSONArray, h]

/-- C10: id 0 is a sentinel at the public interface: GetUserJSON with id 0
runs the unfiltered all-users query (the result has one JSON record per
activists-table row, even when a row with id 0 exists) and returns the
first row of the full listing. -/
theorem C10_id_zero_returns_first_of_full_listing (db : DB)
    (hfail : db.failSelect = false) (hne : db.activists ≠ []) :
    ∃ us, GetUsersJSON db = .ok us ∧
      us.length = db.activists.length ∧
      GetUserJSON db 0 = .ok us.headI := by
  obtain ⟨a, rest, hcons⟩ := List.exists_cons_of_ne_nil hne
  have hjson := getUsersJSON_zero db hfail
  refine ⟨buildUserJSONArray ((db.activists.map (userExtraOfId db)).map setStatus),
    hjson, ?_, ?_⟩
  · simp [buildUserJSONArray]
  · unfold GetUserJSON
    rw [hjson, hcons]
    simp [buildUserJSONArray]

/-- A two-row store whose rows have ids 0 and 5, used for the C10 witness. -/
def idZeroDb : DB :=
  { activists := [sampleRow 0 "Zed", sampleRow 5 "Alice"], events := [],
    eventAttendance := [] }

/-- Witness for C10 on a table whose rows have ids 0 and 5: the id-0 call
returns the first row of the two-row full listing. -/
theorem C10_id_zero_returns_first_of_full_listing_witness :
    (idZeroDb.failSelect = false ∧ idZeroDb.activists ≠ []) ∧
    (∃ us, GetUsersJSON idZeroDb = .ok us ∧
      us.length = idZeroDb.activists.length ∧
      GetUserJSON idZeroDb 0 = .ok us.headI) :=
  ⟨⟨rfl, by decide⟩,
    C10_id_zero_returns_first_of_full_listing idZeroDb rfl (by decide)⟩

theorem getUsers_eq (db : DB) (name : String) (hname : name ≠ "")
    (hfail : db.failSelect = false) :
    getUsers db name =
      .ok (((db.activists.filter (fun a => a.name = name)).insertionSort
        nameLeRow).map userOfRow) := by
  simp [getUsers, hfail, hname]

theorem getUser_cases (db : DB) (name : String) (hname : name ≠ "")
    (hfail : db.failSelect = false) :
    GetUser db name =
      (if (((db.activists.filter (fun a => a.name = name)).insertionSort
              nameLeRow).map userOfRow).length = 0 then
         .error "Could not find any users"
       else if (((db.activists.filter (fun a => a.name = name)).insertionSort
              nameLeRow).map userOfRow).length > 1 then
         .error "Found too many users"
       else
         .ok (((db.activists.filter (fun a => a.name = name)).insertionSort
              nameLeRow).map userOfRow).headI) := by
  unfold GetUser
  rw [getUsers_eq db name hname hfail]

/-- A one-row store with a single activist named "Alice", on which the
empty-string lookups misbehave. -/
def singleAliceDb : DB :=
  { activists := [sampleRow 1 "Alice"], events := [], eventAttendance := [] }

/-- C4 counterexample: at name = "" the claim fails — no activist row has
the empty name (zero rows match), yet GetUser returns a record instead of a
not-found error, because the empty name drops the WHERE clause and runs the
unfiltered query. -/
theorem C4_empty_name_counterexample :
    (∀ a ∈ singleAliceDb.activists, a.name ≠ "") ∧
    GetUser singleAliceDb "" = .ok (userOfRow (sampleRow 1 "Alice")) := by
  exact ⟨by decide, rfl⟩

/-- C4 amended: for every NON-EMPTY name (the empty name instead runs the
unfiltered all-users query), when the store select succeeds GetUser returns
exactly one record when exactly one row matches, fails with the not-found
error when zero rows match, and fails with the too-many error when more
than one row matches. -/
theorem C4_get_by_name_exactly_one (db : DB) (name : String)
    (hname : name ≠ "") (hfail : db.failSelect = false) :
    ((db.activists.filter (fun a => a.name = name)).length = 0 →
        GetUser db name = .error "Could not find any users") ∧
    ((db.activists.filter (fun a => a.name = name)).length > 1 →
        GetUser db name = .error "Found too many users") ∧
    (∀ row, db.activists.filter (fun a => a.name = name) = [row] →
        GetUser db name = .ok (userOfRow row)) := by
  rw [getUser_cases db name hname hfail]
  refine ⟨?_, ?_, ?_⟩
  · intro h0
    rw [List.length_eq_zero.mp h0]
    rfl
  · intro h1
    have hlen : (((db.activists.filter (fun a => a.name = name)).insertionSort
        nameLeRow).map userOfRow).length =
        (db.activists.filter (fun a => a.name = name)).length := by
      simp
    rw [if_neg (by omega), if_pos (by omega)]
  · intro row hrow
    rw [hrow]
    rfl

/-- A two-row store used for the C4 witness. -/
def bobCarolDb : DB :=
  { activists := [sampleRow 7 "Bob", sampleRow 8 "Carol"], events := [],
    eventAttendance := [] }

/-- Witness for C4 at the name "Bob", matched by exactly one row. -/
theorem C4_get_by_name_exactly_one_witness :
    (("Bob" : String) ≠ "" ∧ bobCarolDb.failSelect = false) ∧
    GetUser bobCarolDb "Bob" = .ok (userOfRow (sampleRow 7 "Bob")) :=
  ⟨⟨by decide, rfl⟩,
    (C4_get_by_name_exactly_one bobCarolDb "Bob" (by decide) rfl).2.2
      (sampleRow 7 "Bob") (by decide)⟩

/-- C5 counterexample: at name = "" the claim fails — the empty name does
not exist in the one-row store (no row has the empty name), yet
GetOrCreateUser creates no row at all: the empty-name lookup runs the
unfiltered query, finds exactly one (differently named) row, and returns it
with the store unchanged. -/
theorem C5_empty_name_counterexample :
    (∀ a ∈ singleAliceDb.activists, a.name ≠ "") ∧
    GetOrCreateUser singleAliceDb "" =
      (.ok (userOfRow (sampleRow 1 "Alice")), singleAliceDb) := by
  exact ⟨by decide, rfl⟩

/-- C5 amended: for every NON-EMPTY name (the empty name may instead be
captured by the unfiltered lookup): when the name does not exist and the
store is healthy, GetOrCreateUser creates exactly one row with that name
inside the transaction and returns it; a second call with the same name
returns that same row without inserting a duplicate; and whenever
GetOrCreateUser surfaces an error (a failure at begin, insert, re-read, or
commit), the transaction is rolled back and the visible store state is
exactly the pre-state. -/
theorem C5_get_or_create_idempotent (db : DB) (name : String) (hname : name ≠ "")
    (hs : db.failSelect = false) (hb : db.failBegin = false)
    (hi : db.failInsert = false) (hc : db.failCommit = false)
    (habsent : ∀ a ∈ db.activists, a.name ≠ name) :
    (∃ u db1,
       GetOrCreateUser db name = (.ok u, db1) ∧
       u = userOfRow (newActivistRow db.activists name) ∧
       db1.activists = db.activists ++ [newActivistRow db.activists name] ∧
       (db1.activists.filter (fun a => a.name = name)).length = 1 ∧
       GetOrCreateUser db1 name = (.ok u, db1)) ∧
    (∀ (db2 : DB) (n e : String),
       (GetOrCreateUser db2 n).1 = .error e → (GetOrCreateUser db2 n).2 = db2) := by
  have hfilter : db.activists.filter (fun a => a.name = name) = [] :=
    List.filter_eq_nil_iff.mpr (fun a ha => by simp [habsent a ha])
  have hlookup : GetUser db name = .error "Could not find any users" := by
    rw [getUser_cases db name hname hs, hfilter]
    rfl
  have hfilterApp : (db.activists ++ [newActivistRow db.activists name]).filter
      (fun a => a.name = name) = [newActivistRow db.activists name] := by
    rw [List.filter_append, hfilter]
    simp [newActivistRow]
  have hrun : GetOrCreateUser db name =
      (.ok (userOfRow (newActivistRow db.activists name)),
       { db with activists := db.activists ++ [newActivistRow db.activists name] }) := by
    unfold GetOrCreateUser
    rw [hlookup]
    simp only [hb, hi, hs, hc, hfilterApp]
    rfl
  have hproj : ({ db with
      activists := db.activists ++ [newActivistRow db.activists name] } : DB).activists =
      db.activists ++ [newActivistRow db.activists name] := rfl
  have hs1 : ({ db with
      activists := db.activists ++ [newActivistRow db.activists name] } : DB).failSelect =
      false := hs
  have hlookup1 : GetUser
      { db with activists := db.activists ++ [newActivistRow db.activists name] } name =
      .ok (userOfRow (newActivistRow db.activists name)) := by
    rw [getUser_cases _ name hname hs1, hproj, hfilterApp]
    rfl
  have hsecond : GetOrCreateUser
      { db with activists := db.activists ++ [newActivistRow db.activists name] } name =
      (.ok (userOfRow (newActivistRow db.activists name)),
       { db with activists := db.activists ++ [newActivistRow db.activists name] }) := by
    unfold GetOrCreateUser
    rw [hlookup1]
  refine ⟨⟨userOfRow (newActivistRow db.activists name),
    { db with activists := db.activists ++ [newActivistRow db.activists name] },
    hrun, rfl, rfl, ?_, hsecond⟩, ?_⟩
  · rw [hproj, hfilterApp]
    rfl
  · intro db2 n e h
    unfold GetOrCreateUser at h ⊢
    cases hg : GetUser db2 n with
    | ok u => rfl
    | error e0 =>
      rw [hg] at h
      by_cases h1 : db2.failBegin
      · simp [h1]
      · by_cases h2 : db2.failInsert
        · simp [h1, h2]
        · by_cases h3 : db2.failSelect
          · simp [h1, h2, h3]
          · simp only [h1, h2, h3] at h ⊢
            cases hh : ((db2.activists ++ [newActivistRow db2.activists n]).filter
                (fun a => a.name = n)).head? with
            | none => simp [hh]
            | some row =>
              simp only [hh] at h ⊢
              by_cases h4 : db2.failCommit
              · simp [h4]
              · simp [h4] at h

/-- An empty store used for the C5 witness. -/
def emptyDb : DB := { activists := [], events := [], eventAttendance := [] }

/-- Witness for C5: creating "Alice" in an empty store. -/
theorem C5_get_or_create_idempotent_witness :
    (("Alice" : String) ≠ "" ∧ emptyDb.failSelect = false ∧ emptyDb.failBegin = false ∧
     emptyDb.failInsert = false ∧ emptyDb.failCommit = false ∧
     (∀ a ∈ emptyDb.activists, a.name ≠ "Alice")) ∧
    ((∃ u db1,
       GetOrCreateUser emptyDb "Alice" = (.ok u, db1) ∧
       u = userOfRow (newActivistRow emptyDb.activists "Alice") ∧
       db1.activists = emptyDb.activists ++ [newActivistRow emptyDb.activists "Alice"] ∧
       (db1.activists.filter (fun a => a.name = "Alice")).length = 1 ∧
       GetOrCreateUser db1 "Alice" = (.ok u, db1)) ∧
     (∀ (db2 : DB) (n e : String),
       (GetOrCreateUser db2 n).1 = .error e → (GetOrCreateUser db2 n).2 = db2)) :=
  ⟨⟨by decide, rfl, rfl, rfl, rfl, by decide⟩,
    C5_get_or_create_idempotent emptyDb "Alice" (by decide) rfl rfl rfl rfl (by decide)⟩

theorem getUserRange_asc (db : DB) (opts : UserOptionsJSON) (hname : opts.name ≠ "")
    (hfail : db.failSelect = false) (horder : opts.order = ascOrder) :
    getUserRange db opts = .ok
      ((if opts.limit > 0 then
          ((dedupByName (db.activists.filter
              (fun a => strLt opts.name a.name))).insertionSort nameLeRow).take
            opts.limit.toNat
        else
          (dedupByName (db.activists.filter
              (fun a => strLt opts.name a.name))).insertionSort nameLeRow).map
        (userExtraOfName db)) := by
  simp [getUserRange, hfail, hname, horder, ascOrder, descOrder]

theorem getUserRange_desc (db : DB) (opts : UserOptionsJSON) (hname : opts.name ≠ "")
    (hfail : db.failSelect = false) (horder : opts.order = descOrder) :
    getUserRange db opts = .ok
      ((if opts.limit > 0 then
          ((dedupByName (db.activists.filter
              (fun a => strLt a.name opts.name))).insertionSort nameGeRow).take
            opts.limit.toNat
        else
          (dedupByName (db.activists.filter
              (fun a => strLt a.name opts.name))).insertionSort nameGeRow).map
        (userExtraOfName db)) := by
  simp [getUserRange, hfail, hname, horder]

theorem pairwise_asc_map (db : DB) (l : List ActivistRow)
    (h : List.Pairwise nameLeRow l) :
    List.Pairwise (fun a b : UserExtra => a.user.name ≤ b.user.name)
      (l.map (userExtraOfName db)) := by
  rw [List.pairwise_map]
  exact List.Pairwise.imp (fun hab => hab) h

theorem pairwise_desc_map (db : DB) (l : List ActivistRow)
    (h : List.Pairwise nameGeRow l) :
    List.Pairwise (fun a b : UserExtra => b.user.name ≤ a.user.name)
      (l.map (userExtraOfName db)) := by
  rw [List.pairwise_map]
  exact List.Pairwise.imp (fun hab => hab) h

theorem mem_of_mem_limited {l : List ActivistRow} {r : ActivistRow} {n : Nat}
    {c : Prop} [Decidable c] (hr : r ∈ if c then l.take n else l) : r ∈ l := by
  by_cases h : c
  · rw [if_pos h] at hr
    exact List.take_subset n l hr
  · rwa [if_neg h] at hr

theorem pairwise_limited {l : List ActivistRow} {R : ActivistRow → ActivistRow → Prop}
    {n : Nat} {c : Prop} [Decidable c] (h : l.Pairwise R) :
    (if c then l.take n else l).Pairwise R := by
  by_cases hc : c
  · rw [if_pos hc]
    exact List.Pairwise.sublist (List.take_sublist n l) h
  · rwa [if_neg hc]

/-- C2: for every non-empty anchor name and valid order, getUserRange
returns only rows strictly beyond the anchor (name above the anchor for
ascending, below it for descending), ordered by name in the requested
direction, and the anchor row itself is never included. -/
theorem C2_range_strictly_beyond_anchor (db : DB) (userOptions : UserOptionsJSON)
    (hname : userOptions.name ≠ "")
    (horder : userOptions.order = ascOrder ∨ userOptions.order = descOrder)
    (hfail : db.failSelect = false)
    (us : List UserExtra) (h : getUserRange db userOptions = .ok us) :
    (userOptions.order = ascOrder →
       (∀ u ∈ us, userOptions.name < u.user.name) ∧
       us.Pairwise (fun a b => a.user.name ≤ b.user.name)) ∧
    (userOptions.order = descOrder →
       (∀ u ∈ us, u.user.name < userOptions.name) ∧
       us.Pairwise (fun a b => b.user.name ≤ a.user.name)) ∧
    (∀ u ∈ us, u.user.name ≠ userOptions.name) := by
  rcases horder with ha | hd
  · rw [getUserRange_asc db userOptions hname hfail ha] at h
    injection h with h
    have hmem : ∀ u ∈ us, userOptions.name < u.user.name := by
      intro u hu
      rw [← h] at hu
      obtain ⟨r, hr, rfl⟩ := List.mem_map.mp hu
      have hr2 := (List.mem_insertionSort nameLeRow).mp (mem_of_mem_limited hr)
      have hr3 := mem_dedupByName _ _ hr2
      exact (strLt_iff _ _).mp (List.mem_filter.mp hr3).2
    have hsorted : us.Pairwise (fun a b : UserExtra => a.user.name ≤ b.user.name) := by
      rw [← h]
      exact pairwise_asc_map db _ (pairwise_limited (List.sorted_insertionSort nameLeRow _))
    exact ⟨fun _ => ⟨hmem, hsorted⟩,
      fun hdesc => absurd (ha.symm.trans hdesc) (by decide),
      fun u hu => (ne_of_lt (hmem u hu)).symm⟩
  · rw [getUserRange_desc db userOptions hname hfail hd] at h
    injection h with h
    have hmem : ∀ u ∈ us, u.user.name < userOptions.name := by
      intro u hu
      rw [← h] at hu
      obtain ⟨r, hr, rfl⟩ := List.mem_map.mp hu
      have hr2 := (List.mem_insertionSort nameGeRow).mp (mem_of_mem_limited hr)
      have hr3 := mem_dedupByName _ _ hr2
      exact (strLt_iff _ _).mp (List.mem_filter.mp hr3).2
    have hsorted : us.Pairwise (fun a b : UserExtra => b.user.name ≤ a.user.name) := by
      rw [← h]
      exact pairwise_desc_map db _ (pairwise_limited (List.sorted_insertionSort nameGeRow _))
    exact ⟨fun hasc => absurd (hd.symm.trans hasc) (by decide),
      fun _ => ⟨hmem, hsorted⟩,
      fun u hu => ne_of_lt (hmem u hu)⟩

/-- A three-row store used for the C2 and C6 witnesses. -/
def rangeDb : DB :=
  { activists := [sampleRow 1 "Alice", sampleRow 2 "Bob", sampleRow 3 "Carol"],
    events := [], eventAttendance := [] }

/-- Ascending keyset options anchored at "Bob", used for the C2 witness. -/
def rangeOpts : UserOptionsJSON := { name := "Bob", limit := 0, order := 1 }

/-- The rows getUserRange returns for `rangeOpts` over `rangeDb`. -/
def rangeUs : List UserExtra := [userExtraOfName rangeDb (sampleRow 3 "Carol")]

/-- Witness for C2: anchored at "Bob" ascending over Alice/Bob/Carol, the
result is exactly the Carol row. -/
theorem C2_range_strictly_beyond_anchor_witness :
    (rangeOpts.name ≠ "" ∧ (rangeOpts.order = ascOrder ∨ rangeOpts.order = descOrder) ∧
     rangeDb.failSelect = false ∧ getUserRange rangeDb rangeOpts = .ok rangeUs) ∧
    ((rangeOpts.order = ascOrder →
       (∀ u ∈ rangeUs, rangeOpts.name < u.user.name) ∧
       rangeUs.Pairwise (fun a b => a.user.name ≤ b.user.name)) ∧
     (rangeOpts.order = descOrder →
       (∀ u ∈ rangeUs, u.user.name < rangeOpts.name) ∧
       rangeUs.Pairwise (fun a b => b.user.name ≤ a.user.name)) ∧
     (∀ u ∈ rangeUs, u.user.name ≠ rangeOpts.name)) :=
  ⟨⟨by decide, Or.inl rfl, rfl, by rfl⟩,
    C2_range_strictly_beyond_anchor rangeDb rangeOpts (by decide) (Or.inl rfl) rfl
      rangeUs (by rfl)⟩

theorem getUserRange_noanchor (db : DB) (opts : UserOptionsJSON) (hname : opts.name = "")
    (hfail : db.failSelect = false) :
    getUserRange db opts = .ok
      ((if opts.limit > 0 then
          (if opts.order = descOrder then
             (dedupByName db.activists).insertionSort nameGeRow
           else (dedupByName db.activists).insertionSort nameLeRow).take opts.limit.toNat
        else
          (if opts.order = descOrder then
             (dedupByName db.activists).insertionSort nameGeRow
           else (dedupByName db.activists).insertionSort nameLeRow)).map
        (userExtraOfName db)) := by
  simp [getUserRange, hfail, hname]

/-- C6: with an empty anchor name, getUserRange applies no name filter: the
full listing covers every activist name; with limit > 0 the result is
exactly the first `limit` rows of the full listing in the requested order,
and with limit ≤ 0 it is the whole full listing. -/
theorem C6_empty_anchor_first_page (db : DB) (userOptions : UserOptionsJSON)
    (hname : userOptions.name = "") (hfail : db.failSelect = false) :
    ∃ us full,
      getUserRange db userOptions = .ok us ∧
      getUserRange db { userOptions with limit := 0 } = .ok full ∧
      (∀ a ∈ db.activists, ∃ u ∈ full, u.user.name = a.name) ∧
      (userOptions.limit > 0 → us = full.take userOptions.limit.toNat) ∧
      (userOptions.limit ≤ 0 → us = full) ∧
      (userOptions.order = ascOrder →
        us.Pairwise (fun a b : UserExtra => a.user.name ≤ b.user.name)) ∧
      (userOptions.order = descOrder →
        us.Pairwise (fun a b : UserExtra => b.user.name ≤ a.user.name)) := by
  have h1 := getUserRange_noanchor db userOptions hname hfail
  have h2 := getUserRange_noanchor db { userOptions with limit := 0 } hname hfail
  rw [if_neg (show ¬((0 : Int) > 0) from by decide)] at h2
  refine ⟨_, _, h1, h2, ?_, ?_, ?_, ?_, ?_⟩
  · intro a ha
    obtain ⟨b, hb, hbn⟩ := dedupByName_covers db.activists a ha
    refine ⟨userExtraOfName db b, List.mem_map_of_mem _ ?_, hbn⟩
    by_cases hdesc : ({ userOptions with limit := 0 } : UserOptionsJSON).order = descOrder
    · rw [if_pos hdesc]
      exact (List.mem_insertionSort nameGeRow).mpr hb
    · rw [if_neg hdesc]
      exact (List.mem_insertionSort nameLeRow).mpr hb
  · intro hl
    rw [if_pos hl, List.map_take]
  · intro hl
    rw [if_neg (not_lt.mpr hl)]
  · intro hasc
    have hnd : ¬ userOptions.order = descOrder := by
      rw [hasc]; decide
    simp only [if_neg hnd]
    exact pairwise_asc_map db _ (pairwise_limited (List.sorted_insertionSort nameLeRow _))
  · intro hdesc
    simp only [if_pos hdesc]
    exact pairwise_desc_map db _ (pairwise_limited (List.sorted_insertionSort nameGeRow _))

/-- First-page options (empty anchor, ascending, limit 2) for the C6
witness. -/
def firstPageOpts : UserOptionsJSON := { name := "", limit := 2, order := 1 }

/-- Witness for C6: over Alice/Bob/Carol with limit 2 ascending, the first
page is the first two rows of the full listing. -/
theorem C6_empty_anchor_first_page_witness :
    (firstPageOpts.name = "" ∧ rangeDb.failSelect = false) ∧
    (∃ us full,
      getUserRange rangeDb firstPageOpts = .ok us ∧
      getUserRange rangeDb { firstPageOpts with limit := 0 } = .ok full ∧
      (∀ a ∈ rangeDb.activists, ∃ u ∈ full, u.user.name = a.name) ∧
      (firstPageOpts.limit > 0 → us = full.take firstPageOpts.limit.toNat) ∧
      (firstPageOpts.limit ≤ 0 → us = full) ∧
      (firstPageOpts.order = ascOrder →
        us.Pairwise (fun a b : UserExtra => a.user.name ≤ b.user.name)) ∧
      (firstPageOpts.order = descOrder →
        us.Pairwise (fun a b : UserExtra => b.user.name ≤ a.user.name))) :=
  ⟨⟨rfl, rfl⟩, C6_empty_anchor_first_page rangeDb firstPageOpts rfl rfl⟩

end Model
